import Mathlib

/-!
Verification of the background ingestion pipeline of `dashboard.py`
(environmental-sensor dashboard).  The Python source is shallowly embedded:
JSON payload dictionaries become structures of `Option`-valued fields
(`none` = key absent), Python floats become `ℚ`, dictionary `.get(k, d)`
becomes `Option.getD`, and fallible external calls (scaler transform,
classifier predict, label decode, probability estimation) return
`Except String _` so that a raised exception is an explicit `.error`.
-/

namespace Dashboard

/-- The nested legacy `environment` object of a sensor payload:
`{"temp": ..., "humid": ...}`, each key optional. -/
structure EnvObj where
  temp : Option ℚ
  humid : Option ℚ
  deriving Repr, DecidableEq

/-- An inbound sensor-data JSON payload.  Each field is `none` when the
corresponding key is absent from the JSON object.  Fields not used by the
ingestion loop (ip, rssi, uptime, ...) are omitted from the embedding. -/
structure SensorPayload where
  suhu : Option ℚ := none
  lembab : Option ℚ := none
  adc_raw : Option ℚ := none
  adc_percent : Option ℚ := none
  local_aqi : Option ℚ := none
  aqi_category : Option String := none
  weather_aqi : Option ℚ := none
  environment : Option EnvObj := none
  deriving Repr, DecidableEq

/-- `extract_sensor_values` (dashboard.py lines 2528-2544).  Reads the flat
field names with zero/`"N/A"` defaults, then, when an `environment` key is
present, overwrites temperature and humidity with the nested `temp`/`humid`
values (falling back to the already-read flat values when a nested key is
missing).  Returns `(suhu, lembab, adc_raw, local_aqi, aqi_category)`. -/
def extract_sensor_values (data : SensorPayload) : ℚ × ℚ × ℚ × ℚ × String :=
  let suhu := data.suhu.getD 0
  let lembab := data.lembab.getD 0
  let adc_raw := data.adc_raw.getD 0
  let local_aqi := data.local_aqi.getD 0
  let aqi_category := data.aqi_category.getD "N/A"
  match data.environment with
  | some env => (env.temp.getD suhu, env.humid.getD lembab, adc_raw, local_aqi, aqi_category)
  | none => (suhu, lembab, adc_raw, local_aqi, aqi_category)

/-- The message part of an alert, keeping the numeric value interpolated
into the Python f-string but abstracting the literal text. -/
inductive AlertMsg where
  | aqiDanger (aqi : ℚ)
  | aqiUnhealthy (aqi : ℚ)
  | weatherAqi (aqi : ℚ)
  | highTemp (suhu : ℚ)
  | highHumid (lembab : ℚ)
  | lowHumid (lembab : ℚ)
  deriving Repr, DecidableEq

/-- An alert: severity string (`"danger"`, `"warning"`, `"info"`) paired
with its message. -/
abbrev Alert := String × AlertMsg

/-- `check_alerts` (dashboard.py lines 2754-2785).  Evaluates the threshold
rules in source order: local AQI (`danger` above 200, else `warning` above
100), AccuWeather AQI (`info` when truthy and above 100), high temperature,
then humidity (high `warning` above 80, else low `warning` below 30).
Missing payload keys default to 0 via `.get(k, 0)`.  (`aqi_category` is
read by the Python function but never used.) -/
def check_alerts (data : SensorPayload) : List Alert :=
  let local_aqi := data.local_aqi.getD 0
  let suhu := data.suhu.getD 0
  let lembab := data.lembab.getD 0
  let weather_aqi := data.weather_aqi.getD 0
  (if local_aqi > 200 then [("danger", AlertMsg.aqiDanger local_aqi)]
   else if local_aqi > 100 then [("warning", AlertMsg.aqiUnhealthy local_aqi)]
   else [])
  ++ (if weather_aqi ≠ 0 ∧ weather_aqi > 100 then [("info", AlertMsg.weatherAqi weather_aqi)]
      else [])
  ++ (if suhu > 35 then [("warning", AlertMsg.highTemp suhu)] else [])
  ++ (if lembab > 80 then [("warning", AlertMsg.highHumid lembab)]
      else if lembab < 30 then [("warning", AlertMsg.lowHumid lembab)]
      else [])

/-! ## HistoryWindow (`st.session_state.data_history`, lines 2354-2360) -/

/-- Appending to a Python `deque(maxlen=n)`: the new element is added at the
right and, when the result would exceed `maxlen`, elements are discarded
from the left (oldest first). -/
def dequeAppend (maxlen : ℕ) (xs : List α) (x : α) : List α :=
  if (xs ++ [x]).length > maxlen then (xs ++ [x]).drop ((xs ++ [x]).length - maxlen)
  else xs ++ [x]

/-- The four parallel history series (`data_history`, lines 2354-2360), each
a `deque(maxlen=100)`.  Timestamps are abstracted to `ℚ`. -/
structure DataHistory where
  time : List ℚ
  suhu : List ℚ
  lembab : List ℚ
  aqi : List ℚ
  deriving Repr, DecidableEq

/-- The empty initial history. -/
def DataHistory.init : DataHistory := ⟨[], [], [], []⟩

/-- The four `append` calls performed per drained message by
`process_incoming_data` (lines 2566-2569): one entry per series, with the
extracted `suhu`, `lembab`, `local_aqi` values and the current time. -/
def historyAppend (h : DataHistory) (now suhu lembab aqi : ℚ) : DataHistory :=
  { time := dequeAppend 100 h.time now
    suhu := dequeAppend 100 h.suhu suhu
    lembab := dequeAppend 100 h.lembab lembab
    aqi := dequeAppend 100 h.aqi aqi }

/-- Folding a whole sequence of history appends (one tuple per drained
message, in arrival order) from a starting history. -/
def historyAppendAll (h : DataHistory) (msgs : List (ℚ × ℚ × ℚ × ℚ)) : DataHistory :=
  msgs.foldl (fun acc m => historyAppend acc m.1 m.2.1 m.2.2.1 m.2.2.2) h

/-- The length-and-parallelism invariant of the history window. -/
def DataHistory.Inv (h : DataHistory) : Prop :=
  h.time.length ≤ 100 ∧ h.suhu.length = h.time.length ∧
    h.lembab.length = h.time.length ∧ h.aqi.length = h.time.length

/-! ## Connection staleness (`process_incoming_data`, lines 2628-2650) -/

/-- Connection state visible to the staleness rule: the last-update
timestamp (`none` = the `"Never"` sentinel) and the `mqtt_connected` flag.
Timestamps are seconds as integers (the Python code compares
`(now - last_time).total_seconds()` with 30). -/
structure ConnState where
  last_update : Option ℤ
  connected : Bool
  deriving Repr, DecidableEq

/-- Seconds-of-day of an absolute timestamp in seconds: the clock reading
that a `"%H:%M:%S"` `strftime`/`strptime` round trip preserves.  `Int.emod`
keeps the value in `[0, 86400)`. -/
def secondsOfDay (t : ℤ) : ℤ := t % 86400

/-- The staleness rule at the end of `process_incoming_data`
(lines 2628-2650).  `last_update` is kept only as a `"%H:%M:%S"` string
(line 2559): the check re-parses it (line 2632) and re-dates it onto
TODAY's date (line 2635), so `time_diff` is the difference of the two
seconds-of-day clock readings, not the real elapsed time — across midnight
it goes negative.  When that difference exceeds 30 the flag is cleared;
otherwise data received this tick sets it; otherwise (including when
last-update is still the `"Never"` sentinel) the current flag is kept.
(Sub-second fractions of `now` are abstracted away.) -/
def stalenessCheck (now : ℤ) (last_update : Option ℤ) (data_received connected : Bool) :
    Bool :=
  match last_update with
  | none => connected
  | some t =>
    if secondsOfDay now - secondsOfDay t > 30 then false
    else if data_received then true
    else connected

/-- One tick of the connection-state part of `process_incoming_data`:
draining the queue updates `last_update` to each message's receipt timestamp
and sets the flag (lines 2559, 2621), then the staleness rule runs once
(lines 2628-2650) with `data_received` true iff at least one message was
drained. -/
def processTickConn (now : ℤ) (arrivals : List ℤ) (s : ConnState) : ConnState :=
  let s1 := arrivals.foldl (fun _ ts => ConnState.mk (some ts) true) s
  { s1 with
    connected := stalenessCheck now s1.last_update (decide (arrivals ≠ [])) s1.connected }

/-! ## Inference (`process_incoming_data`, lines 2578-2614) -/

/-- The loaded classifier: `predict` returns the raw predicted class for a
feature vector (modelled as the integer class index `predict(X)[0]`), and
`predict_proba`, when the estimator exposes it, returns the per-class
probability row `predict_proba(X)[0]`.  Both may raise, hence `Except`. -/
structure MLModel where
  predict : List ℚ → Except String ℤ
  predict_proba : Option (List ℚ → Except String (List ℚ))

/-- The optional feature scaler (`ml_scaler.transform`, one row in/out) and
the optional label decoder (`ml_label_encoder.inverse_transform([l])[0]`). -/
structure MLConfig where
  model : MLModel
  scaler : Option (List ℚ → Except String (List ℚ))
  label_encoder : Option (ℤ → Except String String)

/-- The display-text map of line 2592:
`{"AMAN": "Aman", "HATI-HATI": "Waspada", "BAHAYA": "Bahaya"}`.
(The spec's Safe/Caution/Danger are its English glosses of
Aman/Waspada/Bahaya.) -/
def text_map (s : String) : Option String :=
  if s = "AMAN" then some "Aman"
  else if s = "HATI-HATI" then some "Waspada"
  else if s = "BAHAYA" then some "Bahaya"
  else none

/-- The ordinal fallback map of line 2596: `{0: "Aman", 1: "Waspada", 2: "Bahaya"}`. -/
def label_map (n : ℤ) : Option String :=
  if n = 0 then some "Aman"
  else if n = 1 then some "Waspada"
  else if n = 2 then some "Bahaya"
  else none

/-- `np.max` over a probability row: raises on an empty array. -/
def npMax : List ℚ → Except String ℚ
  | [] => .error "zero-size array to reduction operation maximum"
  | x :: xs => .ok (xs.foldl max x)

/-- Line 2580: the feature row `[suhu, lembab, aqi]`, in that fixed order. -/
def featureVec (suhu lembab aqi : ℚ) : List ℚ := [suhu, lembab, aqi]

/-- Lines 2583-2584: `if ml_scaler is not None: X = ml_scaler.transform(X)` —
the row passes through the scaler exactly when one is loaded. -/
def scaleStep (cfg : MLConfig) (X : List ℚ) : Except String (List ℚ) :=
  match cfg.scaler with
  | some sc => sc X
  | none => pure X

/-- Lines 2589-2597: with a label encoder, `inverse_transform` then the
display table with verbatim pass-through of unrecognized strings; without
one, the ordinal map with `"Unknown"` default. -/
def decodeStep (cfg : MLConfig) (pred_label : ℤ) : Except String String :=
  match cfg.label_encoder with
  | some enc => (enc pred_label).map (fun t => (text_map t).getD t)
  | none => pure ((label_map pred_label).getD "Unknown")

/-- Lines 2599-2604: `confidence = float(np.max(predict_proba(X)[0])) * 100`
when the estimator exposes `predict_proba` (on the scaled row), else
`None`. -/
def confStep (cfg : MLConfig) (X : List ℚ) : Except String (Option ℚ) :=
  match cfg.model.predict_proba with
  | some pp => do
      let proba ← pp X
      let m ← npMax proba
      pure (some (m * 100))
  | none => pure (none : Option ℚ)

/-- The body of the `try` block of the inference step (lines 2580-2606), as
an `Except` computation chaining the four stages above. -/
def classifyE (cfg : MLConfig) (suhu lembab aqi : ℚ) :
    Except String (String × Option ℚ) := do
  let X ← scaleStep cfg (featureVec suhu lembab aqi)
  let pred_label ← cfg.model.predict X
  let pred_text ← decodeStep cfg pred_label
  let confidence ← confStep cfg X
  pure (pred_text, confidence)

/-- The `except` clause of the inference step (lines 2612-2614): a raised
exception becomes `("Error", none)`, a normal result passes through. -/
def orError : Except String (String × Option ℚ) → String × Option ℚ
  | .ok r => r
  | .error _ => ("Error", none)

/-- The inference step's result as stored in `ml_prediction`: the `try`
block's `(pred_text, confidence)` on success, and `("Error", none)` when any
step raises (lines 2612-2614).  Total: no exception escapes. -/
def classify (cfg : MLConfig) (suhu lembab aqi : ℚ) : String × Option ℚ :=
  orError (classifyE cfg suhu lembab aqi)

/-- Python `int()` truncation toward zero on a rational. -/
def pyInt (q : ℚ) : ℤ := if q ≥ 0 then ⌊q⌋ else ⌈q⌉

/-- The confidence field of the `set_status` command payload
(line 2478): `int(confidence) if confidence else 0` — `None` and a zero
(falsy) confidence both become `0`. -/
def intConfidence : Option ℚ → ℤ
  | none => 0
  | some q => if q ≠ 0 then pyInt q else 0

/-- An outbound publish performed while processing one message:
`setStatusCmd` is `send_ml_prediction_to_esp32` (payload
`{"cmd": "set_status", "status": ..., "confidence": ...}` to the command
topic, lines 2471-2485); `predictionBroadcast` is `publish_prediction`
(to `TOPIC_PREDICTION`, lines 2848-2857). -/
inductive PubAction where
  | setStatusCmd (status : String) (confidence : ℤ)
  | predictionBroadcast
  deriving Repr, DecidableEq

/-- The ML-prediction section of `process_incoming_data` for one drained
message (lines 2578-2614): when no model is loaded (`cfg = none`) the stored
`ml_prediction` is left unchanged (first component `none`) and nothing is
published; otherwise the `try` block classifies and, on success, stores the
result and sends it to the device via `send_ml_prediction_to_esp32`; on any
exception it stores `("Error", none)` and publishes nothing (the send sits
after the classification inside the same `try`).  The returned list holds
every outbound publish this section performs. -/
def processMessageML (cfg : Option MLConfig) (suhu lembab aqi : ℚ) :
    Option (String × Option ℚ) × List PubAction :=
  match cfg with
  | none => (none, [])
  | some c =>
    match classifyE c suhu lembab aqi with
    | .ok (lab, conf) => (some (lab, conf), [.setStatusCmd lab (intConfidence conf)])
    | .error _ => (some ("Error", none), [])

/-! ## MQTT worker reconnect loop (`mqtt_worker`, lines 2388-2449) -/

/-- An observable action of the worker thread. -/
inductive WorkerAction where
  | logStatus (s : String)
  | connectAttempt
  | subscribe (topic : String) (qos : ℕ)
  | setConnected (b : Bool)
  | logError
  | sleepSecs (n : ℕ)
  deriving Repr, DecidableEq

/-- `_on_connect` (lines 2402-2410): on result code 0, log, subscribe to the
sensor topic and the response topic at QoS 1, and set the connected flag;
otherwise log the failure and clear the flag. -/
def onConnectActions (topic_sensor topic_response : String) (rc : ℕ) :
    List WorkerAction :=
  if rc = 0 then
    [.logStatus "connected", .subscribe topic_sensor 1, .subscribe topic_response 1,
     .setConnected true]
  else
    [.logStatus "error", .setConnected false]

/-- A transport event delivered to the client's callbacks while
`loop_forever` runs: a connection acknowledgment with its result code, or a
broker disconnect. -/
inductive SessionEvent where
  | connAck (rc : ℕ)
  | disconnected (rc : ℕ)
  deriving Repr, DecidableEq

/-- Callback actions for one session event (`_on_connect`, lines 2402-2410;
`_on_disconnect`, lines 2433-2435). -/
def sessionActions (topic_sensor topic_response : String) : SessionEvent → List WorkerAction
  | .connAck rc => onConnectActions topic_sensor topic_response rc
  | .disconnected _ => [.setConnected false, .logStatus "disconnected"]

/-- One iteration of the worker's `while True` loop (lines 2441-2449): log
and attempt `connect`, run the session's callbacks under `loop_forever`
until an exception ends the session (a failed `connect` is the empty
session), then the `except` branch: log the error, clear the connected
flag, and `time.sleep(3)` before the next iteration.  The loop body has no
`return` or `break`: every iteration is followed by another. -/
def workerIteration (topic_sensor topic_response : String) (events : List SessionEvent) :
    List WorkerAction :=
  [.logStatus "connecting", .connectAttempt]
    ++ events.flatMap (sessionActions topic_sensor topic_response)
    ++ [.logError, .setConnected false, .sleepSecs 3]

/-- The worker's full behaviour over an infinite run: iteration `n` of the
`while True` loop processes the `n`-th session's events. -/
def workerTrace (topic_sensor topic_response : String)
    (sessions : ℕ → List SessionEvent) (n : ℕ) : List WorkerAction :=
  workerIteration topic_sensor topic_response (sessions n)

/-! ## Spec-side reference definitions (for refinement comparison only) -/

/-- Spec §4.2 step 5: "If the classifier exposes class-probability
estimation, confidence = 100 × max class probability; otherwise confidence
is absent" — with a raised estimation treated per step 6. -/
def specConfTail (cfg : MLConfig) (scaled : List ℚ) (label : String) :
    String × Option ℚ :=
  match cfg.model.predict_proba with
  | some pp =>
    match pp scaled with
    | .error _ => ("Error", none)
    | .ok proba =>
      match npMax proba with
      | .error _ => ("Error", none)
      | .ok m => (label, some (100 * m))
  | none => (label, none)

/-- Spec §4.2 step 4: decode through the fixed display table, passing
unrecognized decoded strings through verbatim; without a decoder, the
ordinal mapping defaulting to Unknown — then step 5. -/
def specDecodeTail (cfg : MLConfig) (scaled : List ℚ) (rawClass : ℤ) :
    String × Option ℚ :=
  match (match cfg.label_encoder with
    | some enc => (enc rawClass).map (fun decoded => (text_map decoded).getD decoded)
    | none => (pure ((label_map rawClass).getD "Unknown") : Except String String)) with
  | .error _ => ("Error", none)
  | .ok label => specConfTail cfg scaled label

/-- The Inference Adapter pipeline as the SPEC words it (§4.2 steps 1-6):
build the vector in the fixed order (temperature, humidity, AQI); if a
scaler is present transform through it, never conditionally; obtain the raw
class; then steps 4-5 via `specDecodeTail`; any exception in steps 1-5
yields label Error with confidence absent. -/
def classifySpecSide (cfg : MLConfig) (temperature humidity aqi : ℚ) :
    String × Option ℚ :=
  match (match cfg.scaler with
    | some sc => sc [temperature, humidity, aqi]
    | none => (pure [temperature, humidity, aqi] : Except String (List ℚ))) with
  | .error _ => ("Error", none)
  | .ok scaled =>
    match cfg.model.predict scaled with
    | .error _ => ("Error", none)
    | .ok rawClass => specDecodeTail cfg scaled rawClass

/-- Temperature/humidity extraction as the SPEC words it (§4.3): "prefer
the new flat field names; if absent, fall back to a legacy nested-object
shape; default any still-missing field to zero". -/
def extractFlatPreferred (data : SensorPayload) : ℚ × ℚ :=
  let suhu := match data.suhu with
    | some v => v
    | none =>
      match data.environment with
      | some env => env.temp.getD 0
      | none => 0
  let lembab := match data.lembab with
    | some v => v
    | none =>
      match data.environment with
      | some env => env.humid.getD 0
      | none => 0
  (suhu, lembab)

/-- The legacy-wrapped form of a payload (§8 round-trip property): the same
temperature/humidity values carried only inside the nested `environment`
object under keys `temp`/`humid`, the flat `suhu`/`lembab` keys removed. -/
def legacyWrap (p : SensorPayload) : SensorPayload :=
  { p with
    suhu := none
    lembab := none
    environment := some { temp := p.suhu, humid := p.lembab } }

/-! ## Per-rule segments of `check_alerts` (for the decomposition lemma) -/

/-- The local-AQI rule of `check_alerts` (lines 2766-2769). -/
def aqiAlertSeg (data : SensorPayload) : List Alert :=
  if data.local_aqi.getD 0 > 200 then [("danger", AlertMsg.aqiDanger (data.local_aqi.getD 0))]
  else if data.local_aqi.getD 0 > 100 then
    [("warning", AlertMsg.aqiUnhealthy (data.local_aqi.getD 0))]
  else []

/-- The AccuWeather-AQI rule of `check_alerts` (lines 2772-2773). -/
def weatherAlertSeg (data : SensorPayload) : List Alert :=
  if data.weather_aqi.getD 0 ≠ 0 ∧ data.weather_aqi.getD 0 > 100 then
    [("info", AlertMsg.weatherAqi (data.weather_aqi.getD 0))]
  else []

/-- The temperature rule of `check_alerts` (lines 2776-2777). -/
def tempAlertSeg (data : SensorPayload) : List Alert :=
  if data.suhu.getD 0 > 35 then [("warning", AlertMsg.highTemp (data.suhu.getD 0))] else []

/-- The humidity rule of `check_alerts` (lines 2780-2783). -/
def humidAlertSeg (data : SensorPayload) : List Alert :=
  if data.lembab.getD 0 > 80 then [("warning", AlertMsg.highHumid (data.lembab.getD 0))]
  else if data.lembab.getD 0 < 30 then [("warning", AlertMsg.lowHumid (data.lembab.getD 0))]
  else []

/-! ## Concrete adapter configurations used as explicit inputs -/

/-- A classifier that always predicts class 0 and exposes no
`predict_proba`. -/
def constModel : MLModel := ⟨fun _ => .ok 0, none⟩

/-- Adapter with no scaler and no label decoder. -/
def plainCfg : MLConfig := ⟨constModel, none, none⟩

/-- Adapter whose label decoder returns a string outside the display
table. -/
def mysteryCfg : MLConfig := ⟨constModel, none, some (fun _ => .ok "MISTERI")⟩

/-- Adapter whose classifier raises on every `predict` call. -/
def failingCfg : MLConfig := ⟨⟨fun _ => .error "predict raised", none⟩, none, none⟩

/-- A flat-format payload (no `environment` key). -/
def flatPayload : SensorPayload := { suhu := some 5, lembab := some 50 }

/-- A payload carrying both the flat fields and a nested `environment`
object with different values. -/
def mixedPayload : SensorPayload :=
  { suhu := some 5, lembab := some 50,
    environment := some { temp := some 7, humid := some 60 } }

/-! ## Helper lemmas -/

lemma check_alerts_decomp (d : SensorPayload) :
    check_alerts d = aqiAlertSeg d ++ weatherAlertSeg d ++ tempAlertSeg d ++ humidAlertSeg d :=
  rfl

lemma aqiAlertSeg_length (d : SensorPayload) : (aqiAlertSeg d).length ≤ 1 := by
  unfold aqiAlertSeg
  split
  · simp
  · split <;> simp

lemma weatherAlertSeg_length (d : SensorPayload) : (weatherAlertSeg d).length ≤ 1 := by
  unfold weatherAlertSeg
  split <;> simp

lemma tempAlertSeg_length (d : SensorPayload) : (tempAlertSeg d).length ≤ 1 := by
  unfold tempAlertSeg
  split <;> simp

lemma humidAlertSeg_length (d : SensorPayload) : (humidAlertSeg d).length ≤ 1 := by
  unfold humidAlertSeg
  split
  · simp
  · split <;> simp

lemma check_alerts_length_le_four (d : SensorPayload) : (check_alerts d).length ≤ 4 := by
  rw [check_alerts_decomp]
  simp only [List.length_append]
  have h1 := aqiAlertSeg_length d
  have h2 := weatherAlertSeg_length d
  have h3 := tempAlertSeg_length d
  have h4 := humidAlertSeg_length d
  omega

lemma dequeAppend_length (m : ℕ) (xs : List α) (x : α) :
    (dequeAppend m xs x).length = min (xs.length + 1) m := by
  unfold dequeAppend
  split <;> rename_i h <;>
    simp only [List.length_drop, List.length_append, List.length_cons,
      List.length_nil] at h ⊢ <;> omega

lemma historyAppend_inv (h : DataHistory) (hi : h.Inv) (now suhu lembab aqi : ℚ) :
    (historyAppend h now suhu lembab aqi).Inv := by
  obtain ⟨h1, h2, h3, h4⟩ := hi
  refine ⟨?_, ?_, ?_, ?_⟩ <;>
    simp only [historyAppend, dequeAppend_length, DataHistory.Inv] <;> omega

lemma historyAppendAll_inv (msgs : List (ℚ × ℚ × ℚ × ℚ)) :
    ∀ (h : DataHistory), h.Inv → (historyAppendAll h msgs).Inv := by
  induction msgs with
  | nil => intro h hi; exact hi
  | cons m rest ih =>
      intro h hi
      exact ih _ (historyAppend_inv h hi m.1 m.2.1 m.2.2.1 m.2.2.2)

lemma pure_eq_ok (a : α) : (pure a : Except String α) = Except.ok a := rfl

lemma ok_bind (a : α) (f : α → Except String β) :
    ((Except.ok a : Except String α) >>= f) = f a := rfl

lemma error_bind (e : String) (f : α → Except String β) :
    ((Except.error e : Except String α) >>= f) = Except.error e := rfl

lemma bindE_ok {x : Except String α} {f : α → Except String β} {b : β}
    (h : (x >>= f) = .ok b) : ∃ a, x = .ok a ∧ f a = .ok b := by
  cases x with
  | error e => rw [error_bind] at h; exact Except.noConfusion h
  | ok a => exact ⟨a, rfl, by rwa [ok_bind] at h⟩

lemma bindE_congr {x : Except String α} {f g : α → Except String β}
    (h : ∀ a, f a = g a) : (x >>= f) = (x >>= g) := by
  cases x with
  | error e => rw [error_bind, error_bind]
  | ok a => rw [ok_bind, ok_bind]; exact h a

lemma bindE_assoc (x : Except String α) (f : α → Except String β)
    (g : β → Except String γ) : ((x >>= f) >>= g) = (x >>= fun a => f a >>= g) := by
  cases x with
  | error e => rw [error_bind, error_bind, error_bind]
  | ok a => rw [ok_bind, ok_bind]

lemma mapE_eq_bind (x : Except String α) (f : α → β) :
    x.map f = (x >>= fun a => pure (f a)) := by
  cases x <;> rfl

lemma classify_conf_tail_eq (cfg : MLConfig) (X : List ℚ) (lab : String) :
    orError (confStep cfg X >>= fun confidence => pure (lab, confidence)) =
      specConfTail cfg X lab := by
  unfold confStep specConfTail
  rcases hpp : cfg.model.predict_proba with _ | pp
  · rfl
  · dsimp only
    rcases hr : pp X with e | proba
    · rfl
    · simp only [ok_bind]
      rcases hm : npMax proba with e | m
      · rfl
      · simp only [ok_bind, pure_eq_ok]
        dsimp only [orError]
        rw [mul_comm]

lemma classify_decode_tail_eq (cfg : MLConfig) (X : List ℚ) (pred : ℤ) :
    orError (decodeStep cfg pred >>= fun pred_text =>
        confStep cfg X >>= fun confidence => pure (pred_text, confidence)) =
      specDecodeTail cfg X pred := by
  unfold decodeStep specDecodeTail
  rcases henc : cfg.label_encoder with _ | enc
  · dsimp only
    simp only [pure_eq_ok, ok_bind]
    exact classify_conf_tail_eq cfg X ((label_map pred).getD "Unknown")
  · dsimp only
    rcases he : enc pred with e | t
    · rfl
    · dsimp only [Except.map]
      simp only [ok_bind]
      exact classify_conf_tail_eq cfg X ((text_map t).getD t)

lemma text_map_mem {t v : String} (h : text_map t = some v) :
    v ∈ (["Aman", "Waspada", "Bahaya"] : List String) := by
  unfold text_map at h
  split_ifs at h <;> simp_all

lemma label_map_getD_mem (n : ℤ) :
    (label_map n).getD "Unknown" ∈ (["Aman", "Waspada", "Bahaya", "Unknown"] : List String) := by
  unfold label_map
  split_ifs <;> simp

lemma decodeStep_ok_label {cfg : MLConfig} {pred : ℤ} {lab : String}
    (h : decodeStep cfg pred = .ok lab) :
    (cfg.label_encoder = none →
      lab ∈ (["Aman", "Waspada", "Bahaya", "Unknown"] : List String)) ∧
    (∀ enc, cfg.label_encoder = some enc →
      lab ∈ (["Aman", "Waspada", "Bahaya"] : List String) ∨ ∃ raw, enc raw = .ok lab) := by
  unfold decodeStep at h
  rcases henc : cfg.label_encoder with _ | enc <;> rw [henc] at h <;> dsimp only at h
  · constructor
    · intro _
      rw [pure_eq_ok] at h
      injection h with h
      rw [← h]
      exact label_map_getD_mem pred
    · intro enc h2
      exact Option.noConfusion h2
  · constructor
    · intro h2
      exact Option.noConfusion h2
    · intro enc2 h2
      injection h2 with h2
      subst h2
      rcases he : enc pred with e | t <;> rw [he] at h <;> dsimp only [Except.map] at h
      · exact Except.noConfusion h
      · injection h with h
        rcases ht : text_map t with _ | v
        · rw [ht] at h
          simp only [Option.getD_none] at h
          right
          exact ⟨pred, by rw [he, h]⟩
        · rw [ht] at h
          simp only [Option.getD_some] at h
          subst h
          left
          exact text_map_mem ht

lemma classifyE_ok_inv {cfg : MLConfig} {s l a : ℚ} {lab : String} {conf : Option ℚ}
    (h : classifyE cfg s l a = .ok (lab, conf)) :
    ∃ X pred, scaleStep cfg (featureVec s l a) = .ok X ∧
      cfg.model.predict X = .ok pred ∧ decodeStep cfg pred = .ok lab ∧
      confStep cfg X = .ok conf := by
  unfold classifyE at h
  obtain ⟨X, hX, h⟩ := bindE_ok h
  obtain ⟨pred, hpred, h⟩ := bindE_ok h
  obtain ⟨lab2, hlab, h⟩ := bindE_ok h
  obtain ⟨conf2, hconf, h⟩ := bindE_ok h
  rw [pure_eq_ok] at h
  injection h with h
  injection h with h1 h2
  subst h1
  subst h2
  exact ⟨X, pred, hX, hpred, hlab, hconf⟩

/-! ## Claim theorems -/

/-- C6: the input `{local_aqi: 250, suhu: 36, lembab: 85}` yields exactly the
three alerts danger(AQI), warning(temperature), warning(humidity), in that
order; and the input `{local_aqi: 40, suhu: 22, lembab: 50}` yields zero
alerts. -/
theorem check_alerts_worked_examples :
    check_alerts { local_aqi := some 250, suhu := some 36, lembab := some 85 } =
      [("danger", AlertMsg.aqiDanger 250), ("warning", AlertMsg.highTemp 36),
       ("warning", AlertMsg.highHumid 85)] ∧
    check_alerts { local_aqi := some 40, suhu := some 22, lembab := some 50 } = [] := by
  constructor <;> decide

/-- C2: after any sequence of ingestion-loop appends starting from the empty
history, each of the four parallel series has at most 100 entries and all
four have equal length; and appending to a full (100-entry) series evicts
its oldest entry. -/
theorem history_window_invariant :
    (∀ msgs : List (ℚ × ℚ × ℚ × ℚ),
        (historyAppendAll DataHistory.init msgs).time.length ≤ 100 ∧
        (historyAppendAll DataHistory.init msgs).suhu.length =
          (historyAppendAll DataHistory.init msgs).time.length ∧
        (historyAppendAll DataHistory.init msgs).lembab.length =
          (historyAppendAll DataHistory.init msgs).time.length ∧
        (historyAppendAll DataHistory.init msgs).aqi.length =
          (historyAppendAll DataHistory.init msgs).time.length) ∧
    (∀ (xs : List ℚ) (x : ℚ), xs.length = 100 →
        dequeAppend 100 xs x = xs.tail ++ [x]) := by
  constructor
  · intro msgs
    exact historyAppendAll_inv msgs DataHistory.init
      ⟨by simp [DataHistory.init], by simp [DataHistory.init],
       by simp [DataHistory.init], by simp [DataHistory.init]⟩
  · intro xs x hlen
    unfold dequeAppend
    rw [if_pos (by simp [hlen])]
    have h1 : (xs ++ [x]).length - 100 = 1 := by simp [hlen]
    rw [h1, List.drop_append_of_le_length (by omega), List.drop_one]

/-- C2 witness: a concrete append and a concrete eviction at capacity. -/
theorem history_window_invariant_witness :
    ((historyAppendAll DataHistory.init [(1, 2, 3, 4)]).time.length ≤ 100 ∧
      (historyAppendAll DataHistory.init [(1, 2, 3, 4)]).suhu.length =
        (historyAppendAll DataHistory.init [(1, 2, 3, 4)]).time.length ∧
      (historyAppendAll DataHistory.init [(1, 2, 3, 4)]).lembab.length =
        (historyAppendAll DataHistory.init [(1, 2, 3, 4)]).time.length ∧
      (historyAppendAll DataHistory.init [(1, 2, 3, 4)]).aqi.length =
        (historyAppendAll DataHistory.init [(1, 2, 3, 4)]).time.length) ∧
    dequeAppend 100 (List.replicate 100 (0 : ℚ)) 5 =
      (List.replicate 100 (0 : ℚ)).tail ++ [5] :=
  ⟨history_window_invariant.1 [(1, 2, 3, 4)],
   history_window_invariant.2 (List.replicate 100 (0 : ℚ)) 5 (by simp)⟩

/-- C3: the claimed staleness rule is violated by the code at a reachable
input.  The 30-second window is evaluated on the re-dated `%H:%M:%S` clock
readings (line 2635), so across midnight the computed difference wraps
negative: with the last update received at 23:59:50 (second 86390 of day 0)
and a tick at 00:00:21 the next day (absolute second 86421 — 31 real
seconds later) with no new data, the code computes time_diff = -86369 and
leaves the flag connected, although 31 > 30 seconds have elapsed and the
claim (first scenario, and the code's own comment at line 2637) requires
disconnected.  On the same day the rule behaves as claimed: a check 31
seconds after the update reports disconnected, and at 29 seconds with no
new data the flag keeps its previous value. -/
theorem staleness_rule_midnight_wrap :
    (86421 : ℤ) - 86390 = 31 ∧
    secondsOfDay 86421 - secondsOfDay 86390 = -86369 ∧
    (processTickConn 86421 [] ⟨some 86390, true⟩).connected = true ∧
    (processTickConn 31 [] ⟨some 0, true⟩).connected = false ∧
    (processTickConn 29 [] ⟨some 0, true⟩).connected = true := by
  refine ⟨by norm_num, by decide, by decide, by decide, by decide⟩

/-- C10: any payload without a top-level `lembab` key — regardless of what
the nested `environment` object carries — is read by `check_alerts` with
humidity defaulted to 0 and therefore always triggers the low-humidity
warning, because `check_alerts` does not apply the nested-shape fallback
that `extract_sensor_values` applies. -/
theorem missing_lembab_always_low_humidity_alert :
    ∀ d : SensorPayload, d.lembab = none →
      ("warning", AlertMsg.lowHumid 0) ∈ check_alerts d := by
  intro d h
  rw [check_alerts_decomp]
  have hh : humidAlertSeg d = [("warning", AlertMsg.lowHumid 0)] := by
    unfold humidAlertSeg
    rw [h]
    norm_num
  simp [hh]

/-- C10 witness: a legacy payload carrying humidity only inside
`environment` still yields the low-humidity alert read as 0. -/
theorem missing_lembab_always_low_humidity_alert_witness :
    ("warning", AlertMsg.lowHumid 0) ∈
      check_alerts { suhu := none, lembab := none,
                     environment := some { temp := some 28, humid := some 65 } } :=
  missing_lembab_always_low_humidity_alert
    { suhu := none, lembab := none,
      environment := some { temp := some 28, humid := some 65 } } rfl

/-- C5 (amended): the rules fire independently in the fixed source order
(local AQI, external weather AQI, temperature, humidity), each of the four
rule groups contributes at most one alert, so a reading yields between 0
and 4 simultaneous alerts — never 5, since the two humidity thresholds (and
the two local-AQI severities) are mutually exclusive branches; 4 is
attained. -/
theorem alert_rules_independent_up_to_four :
    (∀ d : SensorPayload,
        check_alerts d =
          aqiAlertSeg d ++ weatherAlertSeg d ++ tempAlertSeg d ++ humidAlertSeg d ∧
        (aqiAlertSeg d).length ≤ 1 ∧ (weatherAlertSeg d).length ≤ 1 ∧
        (tempAlertSeg d).length ≤ 1 ∧ (humidAlertSeg d).length ≤ 1 ∧
        (check_alerts d).length ≤ 4) ∧
    check_alerts { local_aqi := some 250, weather_aqi := some 150, suhu := some 36,
                   lembab := some 85 } =
      [("danger", AlertMsg.aqiDanger 250), ("info", AlertMsg.weatherAqi 150),
       ("warning", AlertMsg.highTemp 36), ("warning", AlertMsg.highHumid 85)] := by
  constructor
  · intro d
    exact ⟨check_alerts_decomp d, aqiAlertSeg_length d, weatherAlertSeg_length d,
      tempAlertSeg_length d, humidAlertSeg_length d, check_alerts_length_le_four d⟩
  · decide

/-- C5 counterexample: no reading can yield 5 simultaneous alerts, contrary
to the claim's "0 to 5" — the evaluator's four rule groups contribute at
most one alert each. -/
theorem alert_rules_no_five_alerts :
    ¬ ∃ d : SensorPayload, 5 ≤ (check_alerts d).length := by
  rintro ⟨d, h5⟩
  have h4 := check_alerts_length_le_four d
  omega

/-- C7 counterexample: on a payload carrying `suhu = 5` flat AND
`environment.temp = 7` nested, extraction returns the nested 7, not the
flat 5 — the nested shape overrides the flat fields, contradicting "flat
field names are preferred, the nested shape is the fallback" (the spec-side
flat-preferred extraction returns 5). -/
theorem extract_nested_overrides_flat :
    (extract_sensor_values mixedPayload).1 = 7 ∧
    (extractFlatPreferred mixedPayload).1 = 5 ∧
    (extract_sensor_values mixedPayload).1 ≠ (extractFlatPreferred mixedPayload).1 := by
  refine ⟨by decide, by decide, by decide⟩

/-- C7 (amended): the format-tolerance round trip holds — for every payload
with no `environment` key, extracting (temperature, humidity) from it and
from its legacy-wrapped form yield identical pairs; but precedence is the
reverse of the claim: when `environment` is present its `temp`/`humid`
values override the flat fields, the flat values serving only as defaults
for nested keys that are missing; any still-missing field defaults to
zero/`"N/A"`. -/
theorem extract_round_trip :
    (∀ p : SensorPayload, p.environment = none →
        (extract_sensor_values (legacyWrap p)).1 = (extract_sensor_values p).1 ∧
        (extract_sensor_values (legacyWrap p)).2.1 = (extract_sensor_values p).2.1) ∧
    (∀ (p : SensorPayload) (env : EnvObj), p.environment = some env →
        (extract_sensor_values p).1 = env.temp.getD (p.suhu.getD 0) ∧
        (extract_sensor_values p).2.1 = env.humid.getD (p.lembab.getD 0)) ∧
    extract_sensor_values {} = (0, 0, 0, 0, "N/A") := by
  refine ⟨?_, ?_, rfl⟩
  · intro p h
    simp [extract_sensor_values, legacyWrap, h]
  · intro p env h
    simp [extract_sensor_values, h]

/-- C1 counterexample: with a label decoder that decodes the raw class to
a string outside the display table (here `"MISTERI"`), the inference step
passes it through verbatim, so the resulting label is NOT in
{Safe(Aman), Caution(Waspada), Danger(Bahaya), Unknown, Error}, contrary to
the claim's label-set clause. -/
theorem classify_label_escapes_set :
    (classify mysteryCfg 25 50 10).1 = "MISTERI" ∧
    (classify mysteryCfg 25 50 10).1 ∉
      (["Aman", "Waspada", "Bahaya", "Unknown", "Error"] : List String) := by
  constructor
  · rfl
  · decide

/-- C1 (amended): the inference step never propagates a failure — any
exception in the pipeline yields label `"Error"` with confidence absent —
and the label is in {Safe(Aman), Caution(Waspada), Danger(Bahaya), Unknown,
Error} whenever no label decoder is present; with a decoder, the label is
either in that set or is a string produced by the decoder and passed
through verbatim. -/
theorem classify_never_raises :
    ∀ (cfg : MLConfig) (s l a : ℚ),
      (∀ e, classifyE cfg s l a = .error e → classify cfg s l a = ("Error", none)) ∧
      (cfg.label_encoder = none →
        (classify cfg s l a).1 ∈
          (["Aman", "Waspada", "Bahaya", "Unknown", "Error"] : List String)) ∧
      (∀ enc, cfg.label_encoder = some enc →
        (classify cfg s l a).1 ∈
            (["Aman", "Waspada", "Bahaya", "Unknown", "Error"] : List String) ∨
          ∃ raw, enc raw = .ok ((classify cfg s l a).1)) := by
  intro cfg s l a
  refine ⟨?_, ?_, ?_⟩
  · intro e he
    unfold classify
    rw [he]
    rfl
  · intro henc
    unfold classify
    rcases hc : classifyE cfg s l a with e | r
    · simp [orError]
    · obtain ⟨lab, conf⟩ := r
      obtain ⟨X, pred, _, _, hdec, _⟩ := classifyE_ok_inv hc
      have hm := (decodeStep_ok_label hdec).1 henc
      simp only [orError, List.mem_cons, List.mem_singleton] at hm ⊢
      tauto
  · intro enc henc
    unfold classify
    rcases hc : classifyE cfg s l a with e | r
    · left; simp [orError]
    · obtain ⟨lab, conf⟩ := r
      obtain ⟨X, pred, _, _, hdec, _⟩ := classifyE_ok_inv hc
      rcases (decodeStep_ok_label hdec).2 enc henc with hm | ⟨raw, hraw⟩
      · left
        simp only [orError, List.mem_cons, List.mem_singleton] at hm ⊢
        tauto
      · right
        exact ⟨raw, hraw⟩

/-- C1 witness: a raising classifier yields `("Error", none)`; the
decoder-free adapter yields a label in the set; the pass-through adapter
lands in the decoder disjunct. -/
theorem classify_never_raises_witness :
    classify failingCfg 1 2 3 = ("Error", none) ∧
    (classify plainCfg 1 2 3).1 ∈
      (["Aman", "Waspada", "Bahaya", "Unknown", "Error"] : List String) ∧
    ((classify mysteryCfg 25 50 10).1 ∈
        (["Aman", "Waspada", "Bahaya", "Unknown", "Error"] : List String) ∨
      ∃ raw, (fun _ : ℤ => (Except.ok "MISTERI" : Except String String)) raw =
        .ok ((classify mysteryCfg 25 50 10).1)) :=
  ⟨(classify_never_raises failingCfg 1 2 3).1 "predict raised" rfl,
   (classify_never_raises plainCfg 1 2 3).2.1 rfl,
   (classify_never_raises mysteryCfg 25 50 10).2.2
     (fun _ : ℤ => (Except.ok "MISTERI" : Except String String)) rfl⟩

/-- C8: the inference step of the ingestion loop coincides, on every
adapter configuration and feature triple, with the spec's reference
pipeline (§4.2 steps 1-6): fixed-order feature vector, scaler applied
whenever present, display-table decoding with verbatim pass-through (or
ordinal fallback with Unknown default), confidence 100 × max class
probability when exposed and absent otherwise, Error on any exception. -/
theorem classify_matches_spec_pipeline :
    ∀ (cfg : MLConfig) (s l a : ℚ), classify cfg s l a = classifySpecSide cfg s l a := by
  intro cfg s l a
  unfold classify classifyE classifySpecSide scaleStep featureVec
  rcases hsc : cfg.scaler with _ | sc
  · dsimp only
    simp only [pure_eq_ok, ok_bind]
    rcases hp : cfg.model.predict [s, l, a] with e | pred
    · rfl
    · simp only [ok_bind]
      exact classify_decode_tail_eq cfg [s, l, a] pred
  · dsimp only
    rcases hsx : sc [s, l, a] with e | X
    · rfl
    · simp only [ok_bind]
      rcases hp : cfg.model.predict X with e | pred
      · rfl
      · simp only [ok_bind]
        exact classify_decode_tail_eq cfg X pred

/-- C4 counterexample: a message processed by the worker-queue ingestion
loop with an available adapter publishes only the `set_status` device
command — the prediction-broadcast publish (`publish_prediction`) is absent
from its outbound publishes, contrary to the claim. -/
theorem worker_loop_no_prediction_broadcast :
    processMessageML (some plainCfg) 1 2 3 =
      (some ("Aman", none), [PubAction.setStatusCmd "Aman" 0]) ∧
    PubAction.predictionBroadcast ∉ (processMessageML (some plainCfg) 1 2 3).2 := by
  constructor
  · rfl
  · decide

/-- C4 (amended): for every message processed by the worker-queue ingestion
loop with the Inference Adapter available, the InferenceResult is stored
and published to the device via the Command Publisher as a `set_status`
command, but NOT to the prediction-broadcast topic — that publish exists
only in the legacy manual-connect message path; with no adapter, nothing is
stored or published. -/
theorem worker_publishes_set_status_only :
    ∀ (cfg : MLConfig) (s l a : ℚ),
      (∀ lab conf, classifyE cfg s l a = .ok (lab, conf) →
        processMessageML (some cfg) s l a =
          (some (lab, conf), [PubAction.setStatusCmd lab (intConfidence conf)])) ∧
      (∀ e, classifyE cfg s l a = .error e →
        processMessageML (some cfg) s l a = (some ("Error", none), [])) ∧
      PubAction.predictionBroadcast ∉ (processMessageML (some cfg) s l a).2 ∧
      processMessageML none s l a = (none, []) := by
  intro cfg s l a
  refine ⟨?_, ?_, ?_, rfl⟩
  · intro lab conf h
    unfold processMessageML
    dsimp only
    rw [h]
  · intro e h
    unfold processMessageML
    dsimp only
    rw [h]
  · unfold processMessageML
    dsimp only
    rcases hc : classifyE cfg s l a with e | r
    · simp
    · obtain ⟨lab, conf⟩ := r
      simp

/-- C4 witness: the amended statement evaluated on a concrete successful
classification and a concrete raising one. -/
theorem worker_publishes_set_status_only_witness :
    processMessageML (some plainCfg) 1 2 3 =
      (some ("Aman", (none : Option ℚ)),
        [PubAction.setStatusCmd "Aman" (intConfidence none)]) ∧
    processMessageML (some failingCfg) 1 2 3 = (some ("Error", none), []) :=
  ⟨(worker_publishes_set_status_only plainCfg 1 2 3).1 "Aman" none rfl,
   (worker_publishes_set_status_only failingCfg 1 2 3).2.1 "predict raised" rfl⟩

/-- C9: in every iteration of the worker's infinite loop — whatever the
session outcomes — a fresh connect attempt is made (the loop never
terminates), the iteration ends with the fixed 3-second backoff sleep
before the next reconnect attempt, and any successful connection handshake
(result code 0) immediately re-subscribes to both the sensor-data topic and
the response topic. -/
theorem reconnect_loop :
    ∀ (ts tr : String) (sessions : ℕ → List SessionEvent) (n : ℕ),
      (∃ rest, workerTrace ts tr sessions n =
        WorkerAction.logStatus "connecting" :: WorkerAction.connectAttempt :: rest) ∧
      (∃ pre, workerTrace ts tr sessions n =
        pre ++ [WorkerAction.logError, WorkerAction.setConnected false,
                WorkerAction.sleepSecs 3]) ∧
      (SessionEvent.connAck 0 ∈ sessions n →
        WorkerAction.subscribe ts 1 ∈ workerTrace ts tr sessions n ∧
        WorkerAction.subscribe tr 1 ∈ workerTrace ts tr sessions n) := by
  intro ts tr sessions n
  refine ⟨⟨(sessions n).flatMap (sessionActions ts tr) ++
      [WorkerAction.logError, WorkerAction.setConnected false, WorkerAction.sleepSecs 3],
      by simp [workerTrace, workerIteration]⟩,
    ⟨[WorkerAction.logStatus "connecting", WorkerAction.connectAttempt] ++
      (sessions n).flatMap (sessionActions ts tr),
      by simp [workerTrace, workerIteration]⟩, ?_⟩
  intro hmem
  have hs : WorkerAction.subscribe ts 1 ∈ (sessions n).flatMap (sessionActions ts tr) := by
    rw [List.mem_flatMap]
    exact ⟨SessionEvent.connAck 0, hmem, by simp [sessionActions, onConnectActions]⟩
  have hr : WorkerAction.subscribe tr 1 ∈ (sessions n).flatMap (sessionActions ts tr) := by
    rw [List.mem_flatMap]
    exact ⟨SessionEvent.connAck 0, hmem, by simp [sessionActions, onConnectActions]⟩
  constructor <;> simp [workerTrace, workerIteration, List.mem_append] <;> tauto

/-- C9 witness: an infinite run whose every session acknowledges with
result code 0, at iteration 0, on concrete topic names. -/
theorem reconnect_loop_witness :
    (∃ rest, workerTrace "sensor" "resp" (fun _ => [SessionEvent.connAck 0]) 0 =
      WorkerAction.logStatus "connecting" :: WorkerAction.connectAttempt :: rest) ∧
    (∃ pre, workerTrace "sensor" "resp" (fun _ => [SessionEvent.connAck 0]) 0 =
      pre ++ [WorkerAction.logError, WorkerAction.setConnected false,
              WorkerAction.sleepSecs 3]) ∧
    (WorkerAction.subscribe "sensor" 1 ∈
        workerTrace "sensor" "resp" (fun _ => [SessionEvent.connAck 0]) 0 ∧
      WorkerAction.subscribe "resp" 1 ∈
        workerTrace "sensor" "resp" (fun _ => [SessionEvent.connAck 0]) 0) :=
  ⟨(reconnect_loop "sensor" "resp" (fun _ => [SessionEvent.connAck 0]) 0).1,
   (reconnect_loop "sensor" "resp" (fun _ => [SessionEvent.connAck 0]) 0).2.1,
   (reconnect_loop "sensor" "resp" (fun _ => [SessionEvent.connAck 0]) 0).2.2
     (by simp)⟩

/-- C7 witness: the round trip evaluated on the concrete flat payload
`{suhu: 5, lembab: 50}`, and the nested-precedence clause evaluated on the
concrete mixed payload. -/
theorem extract_round_trip_witness :
    ((extract_sensor_values (legacyWrap flatPayload)).1 =
        (extract_sensor_values flatPayload).1 ∧
      (extract_sensor_values (legacyWrap flatPayload)).2.1 =
        (extract_sensor_values flatPayload).2.1) ∧
    ((extract_sensor_values mixedPayload).1 =
        (Option.getD (some 7) (mixedPayload.suhu.getD 0)) ∧
      (extract_sensor_values mixedPayload).2.1 =
        (Option.getD (some 60) (mixedPayload.lembab.getD 0))) :=
  ⟨extract_round_trip.1 flatPayload rfl,
   extract_round_trip.2.1 mixedPayload ⟨some 7, some 60⟩ rfl⟩

end Dashboard
